import Mathlib

/-!
Verification development for the database-reactivation repository.

The repository ships a Next.js dashboard (under frontend/) and a FastAPI
backend whose conversation-orchestration core (state machine, scheduler,
inbound pipeline, composer, classifier) is described by the project spec.
The frontend components below are embedded directly from the TypeScript
source; the orchestration core, whose Python sources are not part of the
file set, is modelled from the spec (each such definition says so in its
doc comment).
-/

namespace Frontend

/-- A row of the conversations list as the dashboard receives it from the
backend: only the `state` string matters for the statistics computation in
`fetchDashboardData` (frontend/app/export-leads/page.tsx). -/
structure ConvRow where
  state : String
deriving DecidableEq, Repr

/-- The dashboard statistics object built by `fetchDashboardData`. -/
structure Stats where
  totalLeads : Nat
  activeConversations : Nat
  booked : Nat
  optedOut : Nat
deriving DecidableEq, Repr

/-- Embedded from `fetchDashboardData` in frontend/app/export-leads/page.tsx:
`activeConversations` counts conversations whose state is "engaged" or "new",
`booked` counts state "booked", `optedOut` counts state "opted_out". -/
def fetchDashboardStats (total : Nat) (conversations : List ConvRow) : Stats :=
  { totalLeads := total
    activeConversations :=
      (conversations.filter (fun c => c.state == "engaged" || c.state == "new")).length
    booked := (conversations.filter (fun c => c.state == "booked")).length
    optedOut := (conversations.filter (fun c => c.state == "opted_out")).length }

/-- A selected file in the import dialog, with its browser-reported MIME type. -/
structure FileRec where
  name : String
  mime : String
deriving DecidableEq, Repr

/-- The component state of `ImportLeadsModal` that the two handlers touch. -/
structure ModalState where
  file : Option FileRec
  error : Option String
deriving DecidableEq, Repr

/-- Initial `ImportLeadsModal` state: `useState<File | null>(null)` and
`useState<string | null>(null)`. -/
def initialModalState : ModalState :=
  { file := Option.none, error := Option.none }

/-- Embedded from `handleFileChange` in the import-leads modal: when the
change event carries a file, a non-"text/csv" MIME type sets the error and
clears the selection, otherwise the error is cleared and the file stored. -/
def handleFileChange (st : ModalState) (selected : Option FileRec) : ModalState :=
  match selected with
  | Option.none => st
  | some f =>
    if f.mime != "text/csv" then
      { file := Option.none, error := some "Please select a CSV file" }
    else
      { file := some f, error := Option.none }

/-- The POST request the modal issues on submit. -/
structure ImportRequest where
  sentFile : FileRec
  endpointPath : String
deriving DecidableEq, Repr

/-- Embedded from `handleSubmit` in the import-leads modal: with no file
selected it sets an error and returns without a request; otherwise it clears
the error and POSTs the file to the import endpoint. -/
def handleSubmit (st : ModalState) : ModalState × Option ImportRequest :=
  match st.file with
  | Option.none =>
    ({ st with error := some "Please select a file to upload" }, Option.none)
  | some f =>
    ({ st with error := Option.none },
     some { sentFile := f, endpointPath := "/import-leads" })

/-- Invariant of the modal state: any stored file has MIME type text/csv. -/
def fileIsCsv (st : ModalState) : Prop :=
  ∀ f, st.file = some f → f.mime = "text/csv"

end Frontend

namespace Core

/-- Modelled from the spec: the Conversation lifecycle states of §4.1
(`new`, `engaged`, `booked`, `opted_out`, `unresponsive`). -/
inductive ConvState
  | engaged
  | booked
  | optedOut
  | unresponsive
  | new
deriving DecidableEq, Repr, Fintype

/-- Modelled from the spec: `booked` and `opted_out` are the terminal states. -/
def ConvState.isTerminal : ConvState → Bool
  | .booked => true
  | .optedOut => true
  | _ => false

/-- Modelled from the spec: the closed set of classified intents
(opt-out, booking-confirmed, question, generic). -/
inductive Intent
  | optOut
  | bookingConfirmed
  | question
  | generic
deriving DecidableEq, Repr, Fintype

/-- Modelled from the spec: the events accepted by the state machine
(outbound-sent, inbound with a classified intent, the no-inbound-for-N-days
timeout, and the re-engagement timeout of the unresponsive path). -/
inductive Event
  | outboundSent
  | inbound (i : Intent)
  | timeout
  | reengagementTimeout
deriving DecidableEq, Repr, Fintype

/-- Modelled from the spec: the side-effect instructions of the §4.1 table. -/
inductive SideEffect
  | noop
  | scheduleReply
  | markBookingCompleted
  | stopSchedulingPermanently
  | stopActiveScheduling
  | stopSchedulingEntirely
deriving DecidableEq, Repr, Fintype

/-- Modelled from the spec (§4.1): the atomic check-state-and-transition
function. Terminal states reject every event; opt-out detection is checked
first and pre-empts every other intent from any non-terminal state; the
remaining edges follow the transition table. `Option.none` is the explicit
rejection returned to the caller (the state is left unchanged, see
`applyEventToConv`). -/
def transition (st : ConvState) (ev : Event) : Option (ConvState × SideEffect) :=
  if st.isTerminal then Option.none
  else
    match ev with
    | Event.inbound Intent.optOut =>
      some (ConvState.optedOut, SideEffect.stopSchedulingPermanently)
    | Event.outboundSent =>
      if st == ConvState.new then some (ConvState.engaged, SideEffect.noop)
      else Option.none
    | Event.inbound i =>
      match st with
      | ConvState.engaged =>
        if i == Intent.bookingConfirmed then
          some (ConvState.booked, SideEffect.markBookingCompleted)
        else some (ConvState.engaged, SideEffect.scheduleReply)
      | ConvState.unresponsive => some (ConvState.engaged, SideEffect.scheduleReply)
      | _ => Option.none
    | Event.timeout =>
      if st == ConvState.engaged then
        some (ConvState.unresponsive, SideEffect.stopActiveScheduling)
      else Option.none
    | Event.reengagementTimeout =>
      if st == ConvState.unresponsive then
        some (ConvState.unresponsive, SideEffect.stopSchedulingEntirely)
      else Option.none

/-- Modelled from the spec: lower-case a single ASCII letter (the
classifier's deterministic tier is case-insensitive on keywords). -/
def lowerChar (ch : Char) : Char :=
  if 'A' ≤ ch && ch ≤ 'Z' then Char.ofNat (ch.toNat + 32) else ch

/-- Split a lower-cased character list into whitespace-separated words. -/
def splitWords : List Char → List Char → List String
  | [], acc => [String.mk acc.reverse]
  | ch :: rest, acc =>
    if ch == ' ' then String.mk acc.reverse :: splitWords rest []
    else splitWords rest (ch :: acc)

/-- The lower-cased whitespace-separated tokens of an inbound message body. -/
def tokensOf (s : String) : List String :=
  splitWords (s.data.map lowerChar) []

/-- Modelled from the spec: the stop-words of the deterministic keyword tier
(a body containing one maps directly to opt-out). -/
def stopWords : List String :=
  ["stop", "stopall", "unsubscribe", "cancel", "end", "quit"]

/-- Modelled from the spec: affirmative booking-confirmation phrases of the
deterministic keyword tier (mapping directly to booking-confirmed). -/
def bookingPhrases : List String :=
  ["yes", "yeah", "confirm", "confirmed", "book", "booked"]

/-- Does the body contain a stop-word token? -/
def containsStopWord (body : String) : Bool :=
  (tokensOf body).any (fun w => stopWords.contains w)

/-- Does the body contain an affirmative booking-confirmation token? -/
def containsBookingPhrase (body : String) : Bool :=
  (tokensOf body).any (fun w => bookingPhrases.contains w)

/-- Modelled from the spec: the deterministic first tier of the Intent
Classifier — stop-words map directly to opt-out (checked first, so opt-out
has priority), affirmative booking phrases map directly to booking-confirmed,
anything else is ambiguous (`Option.none`). -/
def ruleClassify (body : String) : Option Intent :=
  if containsStopWord body then some Intent.optOut
  else if containsBookingPhrase body then some Intent.bookingConfirmed
  else Option.none

/-- Modelled from the spec: the two-tier Intent Classifier. The deterministic
rules are evaluated first; only an ambiguous body is escalated to the
external text-understanding capability `llm`. -/
def classify (body : String) (llm : String → Intent) : Intent :=
  match ruleClassify body with
  | some i => i
  | Option.none => llm body

/-- Modelled from the spec: message direction. -/
inductive Direction
  | inbound
  | outbound
deriving DecidableEq, Repr

/-- Modelled from the spec: per-message delivery status. -/
inductive DeliveryStatus
  | queued
  | sent
  | received
  | failed
deriving DecidableEq, Repr

/-- Modelled from the spec: a persisted Message. Inbound messages carry the
transport-assigned identifier used for deduplication; `convId` is
`Option.none` only for inbound events recorded for audit without a usable
Conversation. -/
structure Message where
  convId : Option Nat
  direction : Direction
  body : String
  transportId : Option String
  status : DeliveryStatus
deriving DecidableEq, Repr

/-- Modelled from the spec: a Lead, held by reference (id) with the contact
info the pipeline matches webhooks against. -/
structure Lead where
  id : Nat
  name : String
  phone : String
deriving DecidableEq, Repr

/-- Modelled from the spec: a Conversation record — state, last-contact time,
booking flags, retry/failure counters, and the outstanding-scheduled-reply
flag (`due`) the Scheduler reads. -/
structure Conversation where
  id : Nat
  leadId : Nat
  state : ConvState
  bookingLinkSent : Bool
  bookingCompleted : Bool
  lastContact : Nat
  retryCount : Nat
  deliveryImpaired : Nat
  due : Bool
deriving DecidableEq, Repr

/-- Modelled from the spec: the shared store plus the keyed per-lead
execution-slot table (`slots` holds the lead ids whose slot is held). -/
structure Sys where
  leads : List Lead
  convs : List Conversation
  msgs : List Message
  slots : List Nat
  nextConvId : Nat
deriving DecidableEq, Repr

/-- Modelled from the spec: configuration values (maximum message length,
maximum send attempts, backoff base delay, per-state cadence, inactivity
window, the sweep's current time, and the global rate ceiling). -/
structure Config where
  maxLen : Nat
  maxSendAttempts : Nat
  baseDelay : Nat
  cadence : Nat
  inactivityWindow : Nat
  now : Nat
  rateCeiling : Nat
deriving DecidableEq, Repr

/-- Truncate a string to at most `n` characters (the Composer's maximum
body length enforcement). -/
def truncate (n : Nat) (s : String) : String :=
  String.mk (s.data.take n)

/-- Modelled from the spec: the deterministic templated fallback message the
Composer substitutes when the text-generation capability fails or returns
empty content. -/
def fallbackMessage (leadName : String) : String :=
  "Hi " ++ leadName ++ ", just checking in. Are you still interested in booking a call? Reply STOP to opt out."

/-- A compact tag naming the trigger event inside the generation context. -/
def eventTag : Event → String
  | Event.outboundSent => "outbound"
  | Event.inbound _ => "inbound"
  | Event.timeout => "timeout"
  | Event.reengagementTimeout => "reengagement"

/-- Modelled from the spec: the prompt/context the Composer assembles from
the lead profile, the ordered message history and the trigger event. -/
def buildContext (leadName : String) (history : List Message) (trigger : Event) : String :=
  (history.map (fun m => m.body)).foldl (fun a b => a ++ " " ++ b)
    (eventTag trigger ++ " " ++ leadName)

/-- Modelled from the spec: the Composer — a pure function of the lead
attributes, ordered message history and trigger event, delegating generation
to the external capability `gen`; a failed (`Option.none`) or empty
generation is replaced by the templated fallback, and the result is truncated
to the configured maximum length. -/
def compose (cfg : Config) (leadName : String) (history : List Message)
    (trigger : Event) (gen : String → Option String) : String :=
  let raw :=
    match gen (buildContext leadName history trigger) with
    | some t => if t.length == 0 then fallbackMessage leadName else t
    | Option.none => fallbackMessage leadName
  truncate cfg.maxLen raw

/-- The §4.1 transition table written out row by row, as the claim about the
state machine enumerates it (together with the re-engagement-timeout row of
the table that the claim's enumeration omits). Every pair not listed maps to
`Option.none`, the explicit rejection. -/
def claimTransitionTable : ConvState → Event → Option (ConvState × SideEffect)
  | ConvState.new, Event.outboundSent =>
    some (ConvState.engaged, SideEffect.noop)
  | ConvState.engaged, Event.inbound Intent.generic =>
    some (ConvState.engaged, SideEffect.scheduleReply)
  | ConvState.engaged, Event.inbound Intent.question =>
    some (ConvState.engaged, SideEffect.scheduleReply)
  | ConvState.engaged, Event.inbound Intent.bookingConfirmed =>
    some (ConvState.booked, SideEffect.markBookingCompleted)
  | ConvState.new, Event.inbound Intent.optOut =>
    some (ConvState.optedOut, SideEffect.stopSchedulingPermanently)
  | ConvState.engaged, Event.inbound Intent.optOut =>
    some (ConvState.optedOut, SideEffect.stopSchedulingPermanently)
  | ConvState.unresponsive, Event.inbound Intent.optOut =>
    some (ConvState.optedOut, SideEffect.stopSchedulingPermanently)
  | ConvState.engaged, Event.timeout =>
    some (ConvState.unresponsive, SideEffect.stopActiveScheduling)
  | ConvState.unresponsive, Event.inbound Intent.bookingConfirmed =>
    some (ConvState.engaged, SideEffect.scheduleReply)
  | ConvState.unresponsive, Event.inbound Intent.question =>
    some (ConvState.engaged, SideEffect.scheduleReply)
  | ConvState.unresponsive, Event.inbound Intent.generic =>
    some (ConvState.engaged, SideEffect.scheduleReply)
  | ConvState.unresponsive, Event.reengagementTimeout =>
    some (ConvState.unresponsive, SideEffect.stopSchedulingEntirely)
  | _, _ => Option.none

/-- Update the conversation flags according to an accepted transition's
next state and side effect. -/
def applyNext (c : Conversation) (ns : ConvState) (eff : SideEffect) : Conversation :=
  { c with
    state := ns
    bookingCompleted := c.bookingCompleted || (eff == SideEffect.markBookingCompleted)
    due :=
      match eff with
      | SideEffect.scheduleReply => true
      | SideEffect.noop => c.due
      | _ => false }

/-- Modelled from the spec: the atomic check-state-and-transition operation
applied to one Conversation record — the current state is read, the
transition validated and the next state written as one unit; a rejected
event leaves the record unchanged. -/
def applyEventToConv (ev : Event) (c : Conversation) : Conversation :=
  match transition c.state ev with
  | some (ns, eff) => applyNext c ns eff
  | Option.none => c

/-- Replace the conversation with the given id using `f` (the store's
update primitive). -/
def updateConv (s : Sys) (cid : Nat) (f : Conversation → Conversation) : Sys :=
  { s with convs := s.convs.map (fun c => if c.id == cid then f c else c) }

/-- Mark the conversation due so the next Scheduler sweep picks it up. -/
def markDue (s : Sys) (cid : Nat) : Sys :=
  updateConv s cid (fun c => { c with due := true })

/-- The Lead's Conversation in a non-terminal state, if any. -/
def activeConv (s : Sys) (lead : Nat) : Option Conversation :=
  s.convs.find? (fun c => c.leadId == lead && !c.state.isTerminal)

/-- Does the Lead have a Conversation already in a terminal state? -/
def hasTerminalConv (s : Sys) (lead : Nat) : Bool :=
  s.convs.any (fun c => c.leadId == lead && c.state.isTerminal)

/-- Is the Lead's exclusive execution slot currently held? -/
def slotHeld (s : Sys) (lead : Nat) : Bool :=
  s.slots.contains lead

/-- Modelled from the spec: non-blocking acquisition of the per-lead
execution slot — `Option.none` when the slot is already held. -/
def tryAcquireSlot (s : Sys) (lead : Nat) : Option Sys :=
  if slotHeld s lead then Option.none
  else some { s with slots := lead :: s.slots }

/-- Release the per-lead execution slot. -/
def releaseSlot (s : Sys) (lead : Nat) : Sys :=
  { s with slots := s.slots.filter (fun l => l != lead) }

/-- Modelled from the spec: create a Conversation for a Lead (state `new`)
only when the Lead has no non-terminal Conversation, preserving the
one-active-instance-per-Lead invariant. -/
def startConversation (s : Sys) (lead : Nat) : Sys :=
  match activeConv s lead with
  | some _ => s
  | Option.none =>
    { s with
      convs := s.convs ++
        [{ id := s.nextConvId, leadId := lead, state := ConvState.new,
           bookingLinkSent := false, bookingCompleted := false, lastContact := 0,
           retryCount := 0, deliveryImpaired := 0, due := false }]
      nextConvId := s.nextConvId + 1 }

/-- The index of the first successful transport attempt among the bounded
retry attempts, if any (`transport i` is the outcome of attempt `i`). -/
def firstSuccess (transport : Nat → Bool) (n : Nat) : Option Nat :=
  (List.range n).find? (fun i => transport i)

/-- Modelled from the spec: the exponential-backoff schedule — the delay
before retry attempt `i` is `base * 2 ^ i`. -/
def retrySchedule (base : Nat) (n : Nat) : List Nat :=
  (List.range n).map (fun i => base * 2 ^ i)

/-- The persisted record of a successfully sent outbound message. -/
def outboundRecord (cid : Nat) (body : String) : Message :=
  { convId := some cid, direction := Direction.outbound, body := body,
    transportId := Option.none, status := DeliveryStatus.sent }

/-- The persisted record of an inbound webhook message, carrying the
transport-assigned identifier used for deduplication. -/
def inboundRecord (cid : Option Nat) (fromBody : String) (tid : String) : Message :=
  { convId := cid, direction := Direction.inbound, body := fromBody,
    transportId := some tid, status := DeliveryStatus.received }

/-- Modelled from the spec: deliver a composed body over the transport with
bounded exponential-backoff retries. On success the Message is persisted and
the outbound-sent event applied; after exhausting retries the Conversation is
marked delivery-impaired (a counter, not a state change) and left due for the
next sweep. -/
def deliverWithRetry (cfg : Config) (transport : Nat → Bool) (s : Sys)
    (cid : Nat) (body : String) : Sys :=
  match firstSuccess transport cfg.maxSendAttempts with
  | some _ =>
    let s1 := { s with msgs := s.msgs ++ [outboundRecord cid body] }
    updateConv s1 cid (fun c =>
      applyEventToConv Event.outboundSent
        { c with lastContact := cfg.now, due := false, retryCount := 0 })
  | Option.none =>
    updateConv s cid (fun c =>
      { c with deliveryImpaired := c.deliveryImpaired + 1, due := true })

/-- The explicit rejections a send attempt can report to its caller. -/
inductive SendError
  | terminalState
  | noConversation
  | slotUnavailable
deriving DecidableEq, Repr

/-- Modelled from the spec: the single entry point for beginning an outbound
send (used by the Scheduler sweep and by manual sends). The Conversation
state is re-checked immediately before the transport call — a terminal state
is an explicit rejection — and the per-lead execution slot must be acquired
non-blockingly before the Composer/transport is driven. -/
def attemptSend (cfg : Config) (s : Sys) (lead : Nat)
    (bodyOf : Conversation → String) (transport : Nat → Bool) :
    Except SendError Sys :=
  match activeConv s lead with
  | Option.none =>
    if hasTerminalConv s lead then Except.error SendError.terminalState
    else Except.error SendError.noConversation
  | some conv =>
    if conv.state.isTerminal then Except.error SendError.terminalState
    else
      match tryAcquireSlot s lead with
      | Option.none => Except.error SendError.slotUnavailable
      | some s1 =>
        Except.ok (releaseSlot (deliverWithRetry cfg transport s1 conv.id (bodyOf conv)) lead)

/-- Modelled from the spec: `sendManualMessage(leadId, body)` — bypasses the
Composer but still goes through the state machine's transition/slot
discipline (`attemptSend`). -/
def sendManualMessage (cfg : Config) (s : Sys) (lead : Nat) (body : String)
    (transport : Nat → Bool) : Except SendError Sys :=
  attemptSend cfg s lead (fun _ => body) transport

/-- The name of a Lead by id (empty when unknown). -/
def nameOfLead (s : Sys) (lid : Nat) : String :=
  match s.leads.find? (fun l => l.id == lid) with
  | some l => l.name
  | Option.none => ""

/-- The ordered message history of a Conversation. -/
def historyOf (s : Sys) (cid : Nat) : List Message :=
  s.msgs.filter (fun m => m.convId == some cid)

/-- Modelled from the spec: a Conversation is due when its state is `new`,
or `engaged`/`unresponsive` with the outstanding scheduled-reply flag set,
and the elapsed time since last contact reaches the cadence. Terminal
Conversations are never due. -/
def isDue (cfg : Config) (c : Conversation) : Bool :=
  !c.state.isTerminal &&
  (c.state == ConvState.new ||
    ((c.state == ConvState.engaged || c.state == ConvState.unresponsive) && c.due)) &&
  cfg.cadence ≤ cfg.now - c.lastContact

/-- The leads selected by one sweep: due Conversations up to the global
rate ceiling. -/
def dueLeads (cfg : Config) (s : Sys) : List Nat :=
  ((s.convs.filter (isDue cfg)).map (fun c => c.leadId)).take cfg.rateCeiling

/-- One selected lead's share of a sweep: attempt the send through
`attemptSend`; a rejection (terminal state, missing conversation or held
slot) skips the lead, leaving the store unchanged. -/
def sweepStep (cfg : Config) (transport : Nat → Bool) (gen : String → Option String)
    (s : Sys) (lead : Nat) : Sys :=
  match attemptSend cfg s lead
      (fun c => compose cfg (nameOfLead s lead) (historyOf s c.id) Event.outboundSent gen)
      transport with
  | Except.ok s1 => s1
  | Except.error _ => s

/-- Modelled from the spec: one periodic Scheduler sweep over the selected
due leads. -/
def schedulerSweep (cfg : Config) (transport : Nat → Bool)
    (gen : String → Option String) (s : Sys) : Sys :=
  (dueLeads cfg s).foldl (fun acc lead => sweepStep cfg transport gen acc lead) s

/-- Modelled from the spec: the timeout mechanism — every `engaged`
Conversation with no contact beyond the inactivity window receives the
timeout event (becoming `unresponsive`). -/
def applyTimeouts (cfg : Config) (s : Sys) : Sys :=
  { s with
    convs := s.convs.map (fun c =>
      if c.state == ConvState.engaged && cfg.inactivityWindow < cfg.now - c.lastContact then
        applyEventToConv Event.timeout c
      else c) }

/-- An inbound webhook event: lead-identifying contact info, body, and the
transport-assigned message identifier. -/
structure WebhookPayload where
  fromPhone : String
  body : String
  messageId : String
deriving DecidableEq, Repr

/-- The acknowledgement returned to the transport for a webhook delivery
(the pipeline always acknowledges success; duplicates are idempotent). -/
inductive Ack
  | processed
deriving DecidableEq, Repr

/-- Has the transport identifier already been recorded on a persisted
Message? -/
def idRecorded (s : Sys) (tid : String) : Bool :=
  s.msgs.any (fun m => m.transportId == some tid)

/-- Modelled from the spec: the Inbound Pipeline's reaction once the Message
is persisted and classified — submit the intent to the state machine; on a
schedule-reply side effect acquire the per-lead slot non-blockingly and
compose/send an immediate reply, falling back to marking the Conversation
due when the slot is unavailable. -/
def reactToInbound (cfg : Config) (s : Sys) (lead : Lead) (conv : Conversation)
    (intent : Intent) (gen : String → Option String) (transport : Nat → Bool) : Sys :=
  match transition conv.state (Event.inbound intent) with
  | Option.none => s
  | some (_, eff) =>
    let s1 := updateConv s conv.id (applyEventToConv (Event.inbound intent))
    if eff == SideEffect.scheduleReply then
      match tryAcquireSlot s1 lead.id with
      | Option.none => markDue s1 conv.id
      | some s2 =>
        let replyBody :=
          compose cfg lead.name (historyOf s2 conv.id) (Event.inbound intent) gen
        releaseSlot (deliverWithRetry cfg transport s2 conv.id replyBody) lead.id
    else s1

/-- Modelled from the spec: processing of a fresh (non-duplicate) inbound
event — match the lead by contact info (an unknown lead's event is recorded
for audit only), persist the Message, classify, and feed the state machine,
creating a Conversation when the lead has none. -/
def processNewInbound (cfg : Config) (s : Sys) (p : WebhookPayload)
    (llm : String → Intent) (gen : String → Option String)
    (transport : Nat → Bool) : Sys :=
  match s.leads.find? (fun l => l.phone == p.fromPhone) with
  | Option.none =>
    { s with msgs := s.msgs ++ [inboundRecord Option.none p.body p.messageId] }
  | some lead =>
    let s1 :=
      if s.convs.any (fun c => c.leadId == lead.id) then s
      else startConversation s lead.id
    match activeConv s1 lead.id with
    | Option.none =>
      { s1 with msgs := s1.msgs ++ [inboundRecord Option.none p.body p.messageId] }
    | some conv =>
      let s2 := { s1 with msgs := s1.msgs ++ [inboundRecord (some conv.id) p.body p.messageId] }
      reactToInbound cfg s2 lead conv (classify p.body llm) gen transport

/-- Modelled from the spec: `handleInboundWebhook(payload)` — an already
recorded transport identifier is acknowledged as successfully processed with
no further side effects; a new identifier is processed by the pipeline. -/
def handleInboundWebhook (cfg : Config) (s : Sys) (p : WebhookPayload)
    (llm : String → Intent) (gen : String → Option String)
    (transport : Nat → Bool) : Sys × Ack :=
  if idRecorded s p.messageId then (s, Ack.processed)
  else (processNewInbound cfg s p llm gen transport, Ack.processed)

/-- The number of non-terminal Conversations a Lead has in the store. -/
def nonTerminalCount (s : Sys) (lead : Nat) : Nat :=
  s.convs.countP (fun c => c.leadId == lead && !c.state.isTerminal)

/-- The enforced store invariant: at most one non-terminal Conversation per
Lead. -/
def oneActivePerLead (s : Sys) : Prop :=
  ∀ lead, nonTerminalCount s lead ≤ 1

/-- The number of persisted Messages carrying a given transport identifier. -/
def msgCountFor (s : Sys) (tid : String) : Nat :=
  s.msgs.countP (fun m => m.transportId == some tid)

/-- The number of persisted outbound Messages. -/
def outboundCount (s : Sys) : Nat :=
  s.msgs.countP (fun m => m.direction == Direction.outbound)

end Core

namespace Core

/-! Shared helper lemmas. -/

lemma truncate_length (n : Nat) (s : String) :
    (truncate n s).length = min n s.length := by
  show (s.data.take n).length = min n s.length
  exact List.length_take n s.data

lemma fallback_length_pos (n : String) : 0 < (fallbackMessage n).length := by
  unfold fallbackMessage
  rw [String.length_append, String.length_append]
  have h : ("Hi ").length = 3 := rfl
  omega

lemma string_length_pos_of_ne_zero (s : String) (h : (s.length == 0) = false) :
    0 < s.length := by
  cases hn : s.length with
  | zero => rw [hn] at h; simp at h
  | succ k => omega

lemma transition_isTerminal_false {st : ConvState} {ev : Event}
    {x : ConvState × SideEffect} (h : transition st ev = some x) :
    st.isTerminal = false := by
  cases hterm : st.isTerminal with
  | false => rfl
  | true =>
    unfold transition at h
    rw [hterm] at h
    simp at h

lemma applyNext_id (c : Conversation) (ns : ConvState) (eff : SideEffect) :
    (applyNext c ns eff).id = c.id := rfl

lemma applyNext_leadId (c : Conversation) (ns : ConvState) (eff : SideEffect) :
    (applyNext c ns eff).leadId = c.leadId := rfl

lemma applyEventToConv_id (ev : Event) (c : Conversation) :
    (applyEventToConv ev c).id = c.id := by
  unfold applyEventToConv
  cases h : transition c.state ev with
  | none => rfl
  | some x => cases x with | mk ns eff => rfl

lemma applyEventToConv_leadId (ev : Event) (c : Conversation) :
    (applyEventToConv ev c).leadId = c.leadId := by
  unfold applyEventToConv
  cases h : transition c.state ev with
  | none => rfl
  | some x => cases x with | mk ns eff => rfl

lemma applyEventToConv_nonterm (ev : Event) (c : Conversation)
    (h : (applyEventToConv ev c).state.isTerminal = false) :
    c.state.isTerminal = false := by
  revert h
  unfold applyEventToConv
  cases h : transition c.state ev with
  | none => intro h2; exact h2
  | some x =>
    cases x with
    | mk ns eff => intro _; exact transition_isTerminal_false h

lemma find?_map_update (l : List Conversation) (cid : Nat)
    (f : Conversation → Conversation) (hf : ∀ c, (f c).id = c.id) :
    (l.map (fun c => if c.id == cid then f c else c)).find? (fun c => c.id == cid)
      = (l.find? (fun c => c.id == cid)).map f := by
  induction l with
  | nil => rfl
  | cons a l ih =>
    by_cases h : (a.id == cid) = true
    · have hfa : ((f a).id == cid) = true := by rw [hf a]; exact h
      simp [List.find?, h, hfa]
    · have h' : (a.id == cid) = false := by
        cases h2 : (a.id == cid) with
        | true => exact absurd h2 h
        | false => rfl
      simp only [List.map_cons, if_neg h, List.find?, h', ih]
      simp [h']

lemma find?_updateConv (s : Sys) (cid : Nat) (f : Conversation → Conversation)
    (hf : ∀ c, (f c).id = c.id) :
    (updateConv s cid f).convs.find? (fun c => c.id == cid)
      = (s.convs.find? (fun c => c.id == cid)).map f :=
  find?_map_update s.convs cid f hf

lemma countP_map_le {α : Type} (l : List α) (g : α → α) (p : α → Bool)
    (h : ∀ a, p (g a) = true → p a = true) :
    (l.map g).countP p ≤ l.countP p := by
  induction l with
  | nil => simp
  | cons a l ih =>
    rw [List.map_cons, List.countP_cons, List.countP_cons]
    by_cases hp : p (g a) = true
    · rw [hp, h a hp]
      omega
    · have hp' : p (g a) = false := by
        cases h2 : p (g a) with
        | true => exact absurd h2 hp
        | false => rfl
      rw [hp']
      simp only [if_false, Bool.false_eq_true]
      split <;> omega

lemma tryAcquireSlot_eq {s s' : Sys} {lead : Nat}
    (h : tryAcquireSlot s lead = some s') :
    s' = { s with slots := lead :: s.slots } := by
  unfold tryAcquireSlot at h
  split at h
  · exact absurd h (by simp)
  · injection h with h
    exact h.symm

lemma startConversation_msgs (s : Sys) (lead : Nat) :
    (startConversation s lead).msgs = s.msgs := by
  unfold startConversation
  split <;> rfl

lemma startConversation_slots (s : Sys) (lead : Nat) :
    (startConversation s lead).slots = s.slots := by
  unfold startConversation
  split <;> rfl

lemma countP_tid_none_tail (tid : String) (tail : List Message)
    (h : ∀ m ∈ tail, m.transportId = Option.none) :
    tail.countP (fun m => m.transportId == some tid) = 0 := by
  rw [List.countP_eq_zero]
  intro m hm
  rw [h m hm]
  simp

lemma msgCount_of_append_tail {s' s : Sys} {tail : List Message}
    (h : s'.msgs = s.msgs ++ tail)
    (hn : ∀ m ∈ tail, m.transportId = Option.none) (tid : String) :
    msgCountFor s' tid = msgCountFor s tid := by
  unfold msgCountFor
  rw [h, List.countP_append, countP_tid_none_tail tid tail hn]
  rfl

lemma idRecorded_of_append_tail {s' s : Sys} {tail : List Message}
    (h : s'.msgs = s.msgs ++ tail)
    (hn : ∀ m ∈ tail, m.transportId = Option.none) (tid : String) :
    idRecorded s' tid = idRecorded s tid := by
  unfold idRecorded
  rw [h, List.any_append]
  have hz : tail.any (fun m => m.transportId == some tid) = false := by
    rw [List.any_eq_false]
    intro m hm
    rw [hn m hm]
    simp
  rw [hz, Bool.or_false]

lemma deliver_msgs (cfg : Config) (transport : Nat → Bool) (s : Sys)
    (cid : Nat) (body : String) :
    ∃ tail, (deliverWithRetry cfg transport s cid body).msgs = s.msgs ++ tail ∧
      ∀ m ∈ tail, m.transportId = Option.none := by
  cases h : firstSuccess transport cfg.maxSendAttempts with
  | some i =>
    refine ⟨[outboundRecord cid body], ?_, ?_⟩
    · simp only [deliverWithRetry, h]
      rfl
    · intro m hm
      rw [List.mem_singleton] at hm
      rw [hm]
      rfl
  | none =>
    refine ⟨[], ?_, by simp⟩
    simp only [deliverWithRetry, h]
    rw [List.append_nil]
    rfl

lemma react_msgs (cfg : Config) (s : Sys) (lead : Lead) (conv : Conversation)
    (intent : Intent) (gen : String → Option String) (transport : Nat → Bool) :
    ∃ tail, (reactToInbound cfg s lead conv intent gen transport).msgs = s.msgs ++ tail ∧
      ∀ m ∈ tail, m.transportId = Option.none := by
  cases ht : transition conv.state (Event.inbound intent) with
  | none =>
    refine ⟨[], ?_, by simp⟩
    simp only [reactToInbound, ht]
    simp
  | some x =>
    cases x with
    | mk ns eff =>
      by_cases he : (eff == SideEffect.scheduleReply) = true
      · cases ha : tryAcquireSlot
            (updateConv s conv.id (applyEventToConv (Event.inbound intent))) lead.id with
        | none =>
          refine ⟨[], ?_, by simp⟩
          simp only [reactToInbound, ht, he, if_true, ha]
          rw [List.append_nil]
          rfl
        | some s2 =>
          have hs2 := tryAcquireSlot_eq ha
          obtain ⟨tail, htail, hnone⟩ := deliver_msgs cfg transport s2 conv.id
            (compose cfg lead.name (historyOf s2 conv.id) (Event.inbound intent) gen)
          refine ⟨tail, ?_, hnone⟩
          simp only [reactToInbound, ht, he, if_true, ha]
          show (deliverWithRetry cfg transport s2 conv.id
            (compose cfg lead.name (historyOf s2 conv.id) (Event.inbound intent) gen)).msgs
              = s.msgs ++ tail
          rw [htail, hs2]
          rfl
      · have he' : (eff == SideEffect.scheduleReply) = false := by
          cases h2 : (eff == SideEffect.scheduleReply) with
          | true => exact absurd h2 he
          | false => rfl
        refine ⟨[], ?_, by simp⟩
        simp only [reactToInbound, ht, he', Bool.false_eq_true, if_false]
        rw [List.append_nil]
        rfl

lemma idRecorded_false_count (s : Sys) (tid : String)
    (h : idRecorded s tid = false) : msgCountFor s tid = 0 := by
  unfold idRecorded at h
  unfold msgCountFor
  rw [List.countP_eq_zero]
  exact List.any_eq_false.mp h

lemma append_inboundRecord_count (l : List Message) (cid : Option Nat)
    (body : String) (tid : String) :
    (l ++ [inboundRecord cid body tid]).countP (fun m => m.transportId == some tid)
      = l.countP (fun m => m.transportId == some tid) + 1 := by
  rw [List.countP_append]
  simp [inboundRecord]

lemma append_inboundRecord_any (l : List Message) (cid : Option Nat)
    (body : String) (tid : String) :
    (l ++ [inboundRecord cid body tid]).any (fun m => m.transportId == some tid) = true := by
  rw [List.any_append]
  simp [inboundRecord]

lemma processNewInbound_records (cfg : Config) (s : Sys) (p : WebhookPayload)
    (llm : String → Intent) (gen : String → Option String) (transport : Nat → Bool) :
    msgCountFor (processNewInbound cfg s p llm gen transport) p.messageId
      = msgCountFor s p.messageId + 1 ∧
    idRecorded (processNewInbound cfg s p llm gen transport) p.messageId = true := by
  cases hl : s.leads.find? (fun l => l.phone == p.fromPhone) with
  | none =>
    constructor
    · simp only [processNewInbound, hl, msgCountFor]
      exact append_inboundRecord_count s.msgs Option.none p.body p.messageId
    · simp only [processNewInbound, hl, idRecorded]
      exact append_inboundRecord_any s.msgs Option.none p.body p.messageId
  | some lead =>
    have hs1 : (if s.convs.any (fun c => c.leadId == lead.id) then s
        else startConversation s lead.id).msgs = s.msgs := by
      split
      · rfl
      · exact startConversation_msgs s lead.id
    cases hac : activeConv
        (if s.convs.any (fun c => c.leadId == lead.id) then s
          else startConversation s lead.id) lead.id with
    | none =>
      constructor
      · simp only [processNewInbound, hl, hac, msgCountFor, hs1]
        exact append_inboundRecord_count s.msgs Option.none p.body p.messageId
      · simp only [processNewInbound, hl, hac, idRecorded, hs1]
        exact append_inboundRecord_any s.msgs Option.none p.body p.messageId
    | some conv =>
      obtain ⟨tail, htail, hnone⟩ := react_msgs cfg
        { (if s.convs.any (fun c => c.leadId == lead.id) then s
            else startConversation s lead.id) with
          msgs := (if s.convs.any (fun c => c.leadId == lead.id) then s
            else startConversation s lead.id).msgs ++
              [inboundRecord (some conv.id) p.body p.messageId] }
        lead conv (classify p.body llm) gen transport
      have hres : (processNewInbound cfg s p llm gen transport).msgs =
          (s.msgs ++ [inboundRecord (some conv.id) p.body p.messageId]) ++ tail := by
        simp only [processNewInbound, hl, hac]
        rw [htail]
        rw [show ({ (if s.convs.any (fun c => c.leadId == lead.id) then s
            else startConversation s lead.id) with
          msgs := (if s.convs.any (fun c => c.leadId == lead.id) then s
            else startConversation s lead.id).msgs ++
              [inboundRecord (some conv.id) p.body p.messageId] } : Sys).msgs
          = (if s.convs.any (fun c => c.leadId == lead.id) then s
            else startConversation s lead.id).msgs ++
              [inboundRecord (some conv.id) p.body p.messageId] from rfl]
        rw [hs1]
      constructor
      · unfold msgCountFor
        rw [hres, List.countP_append, countP_tid_none_tail p.messageId tail hnone]
        rw [append_inboundRecord_count s.msgs (some conv.id) p.body p.messageId]
      · unfold idRecorded
        rw [hres, List.any_append]
        have hz : tail.any (fun m => m.transportId == some p.messageId) = false := by
          rw [List.any_eq_false]
          intro m hm
          rw [hnone m hm]
          simp
        rw [hz, Bool.or_false]
        exact append_inboundRecord_any s.msgs (some conv.id) p.body p.messageId

lemma nonTerminalCount_convs_eq {s' s : Sys} (h : s'.convs = s.convs) (lead : Nat) :
    nonTerminalCount s' lead = nonTerminalCount s lead := by
  unfold nonTerminalCount
  rw [h]

lemma inv_of_convs_eq {s' s : Sys} (h : s'.convs = s.convs)
    (hs : oneActivePerLead s) : oneActivePerLead s' := by
  intro lead
  rw [nonTerminalCount_convs_eq h]
  exact hs lead

/-- A per-conversation update is safe for the one-active-per-lead invariant
when it never moves a record to another lead and never revives a terminal
state into a non-terminal one. -/
def convSafe (f : Conversation → Conversation) : Prop :=
  ∀ c, (f c).leadId = c.leadId ∧
    ((f c).state.isTerminal = false → c.state.isTerminal = false)

lemma convSafe_applyEvent (ev : Event) : convSafe (applyEventToConv ev) :=
  fun c => ⟨applyEventToConv_leadId ev c, applyEventToConv_nonterm ev c⟩

lemma convSafe_markDue : convSafe (fun c => { c with due := true }) :=
  fun _ => ⟨rfl, fun h => h⟩

lemma convSafe_impair :
    convSafe (fun c => { c with deliveryImpaired := c.deliveryImpaired + 1, due := true }) :=
  fun _ => ⟨rfl, fun h => h⟩

lemma convSafe_outboundUpdate (cfg : Config) :
    convSafe (fun c => applyEventToConv Event.outboundSent
      { c with lastContact := cfg.now, due := false, retryCount := 0 }) :=
  fun c =>
    ⟨applyEventToConv_leadId Event.outboundSent _,
     fun h => applyEventToConv_nonterm Event.outboundSent
       { c with lastContact := cfg.now, due := false, retryCount := 0 } h⟩

lemma inv_updateConv {s : Sys} {cid : Nat} {f : Conversation → Conversation}
    (hf : convSafe f) (hs : oneActivePerLead s) :
    oneActivePerLead (updateConv s cid f) := by
  intro lead
  refine le_trans ?_ (hs lead)
  unfold nonTerminalCount
  rw [show (updateConv s cid f).convs =
    s.convs.map (fun c => if c.id == cid then f c else c) from rfl]
  apply countP_map_le
  intro c hc
  by_cases h : (c.id == cid) = true
  · rw [if_pos h] at hc
    rw [Bool.and_eq_true] at hc ⊢
    obtain ⟨h1, h2⟩ := hc
    obtain ⟨hl, hstate⟩ := hf c
    constructor
    · rw [← hl]
      exact h1
    · rw [Bool.not_eq_true'] at h2 ⊢
      exact hstate h2
  · rw [if_neg h] at hc
    exact hc

lemma inv_startConversation (s : Sys) (lead : Nat) (hs : oneActivePerLead s) :
    oneActivePerLead (startConversation s lead) := by
  cases h : activeConv s lead with
  | some c =>
    simp only [startConversation, h]
    exact hs
  | none =>
    simp only [startConversation, h]
    intro lead2
    unfold nonTerminalCount
    rw [show ({ s with
          convs := s.convs ++
            [{ id := s.nextConvId, leadId := lead, state := ConvState.new,
               bookingLinkSent := false, bookingCompleted := false, lastContact := 0,
               retryCount := 0, deliveryImpaired := 0, due := false }],
          nextConvId := s.nextConvId + 1 } : Sys).convs =
      s.convs ++
        [{ id := s.nextConvId, leadId := lead, state := ConvState.new,
           bookingLinkSent := false, bookingCompleted := false, lastContact := 0,
           retryCount := 0, deliveryImpaired := 0, due := false }] from rfl]
    rw [List.countP_append]
    have h' : s.convs.find?
        (fun c => c.leadId == lead && !c.state.isTerminal) = Option.none := h
    by_cases hl : lead2 = lead
    · subst hl
      have h0 : s.convs.countP
          (fun c => c.leadId == lead2 && !c.state.isTerminal) = 0 := by
        rw [List.countP_eq_zero]
        exact List.find?_eq_none.mp h'
      rw [h0]
      simp [ConvState.isTerminal]
    · have hne : ((lead : Nat) == lead2) = false := by
        rw [beq_eq_false_iff_ne]
        exact fun hh => hl hh.symm
      have h1 : (([{ id := s.nextConvId, leadId := lead, state := ConvState.new,
                     bookingLinkSent := false, bookingCompleted := false, lastContact := 0,
                     retryCount := 0, deliveryImpaired := 0, due := false }]) :
            List Conversation).countP
          (fun c => c.leadId == lead2 && !c.state.isTerminal) = 0 := by
        simp [hne]
      rw [h1, Nat.add_zero]
      exact hs lead2

lemma inv_deliverWithRetry (cfg : Config) (transport : Nat → Bool) (s : Sys)
    (cid : Nat) (body : String) (hs : oneActivePerLead s) :
    oneActivePerLead (deliverWithRetry cfg transport s cid body) := by
  cases h : firstSuccess transport cfg.maxSendAttempts with
  | some i =>
    simp only [deliverWithRetry, h]
    exact inv_updateConv (convSafe_outboundUpdate cfg) (inv_of_convs_eq rfl hs)
  | none =>
    simp only [deliverWithRetry, h]
    exact inv_updateConv convSafe_impair hs

lemma inv_attemptSend {cfg : Config} {s : Sys} {lead : Nat}
    {bodyOf : Conversation → String} {transport : Nat → Bool} {s' : Sys}
    (h : attemptSend cfg s lead bodyOf transport = Except.ok s')
    (hs : oneActivePerLead s) : oneActivePerLead s' := by
  unfold attemptSend at h
  cases hac : activeConv s lead with
  | none =>
    simp only [hac] at h
    split at h <;> simp at h
  | some conv =>
    simp only [hac] at h
    by_cases hterm : conv.state.isTerminal = true
    · rw [if_pos hterm] at h
      simp at h
    · rw [if_neg hterm] at h
      cases ha : tryAcquireSlot s lead with
      | none =>
        simp only [ha] at h
        exact Except.noConfusion h
      | some s1 =>
        simp only [ha] at h
        injection h with h
        have heq := tryAcquireSlot_eq ha
        have hs1 : oneActivePerLead s1 :=
          inv_of_convs_eq (show s1.convs = s.convs by rw [heq]) hs
        have hd := inv_deliverWithRetry cfg transport s1 conv.id (bodyOf conv) hs1
        have hr : oneActivePerLead
            (releaseSlot (deliverWithRetry cfg transport s1 conv.id (bodyOf conv)) lead) :=
          inv_of_convs_eq rfl hd
        rw [← h]
        exact hr

lemma inv_sweepStep (cfg : Config) (transport : Nat → Bool)
    (gen : String → Option String) (s : Sys) (lead : Nat)
    (hs : oneActivePerLead s) :
    oneActivePerLead (sweepStep cfg transport gen s lead) := by
  cases h : attemptSend cfg s lead
      (fun c => compose cfg (nameOfLead s lead) (historyOf s c.id) Event.outboundSent gen)
      transport with
  | ok s1 =>
    simp only [sweepStep, h]
    exact inv_attemptSend h hs
  | error e =>
    simp only [sweepStep, h]
    exact hs

lemma foldl_preserve {P : Sys → Prop} (step : Sys → Nat → Sys)
    (hstep : ∀ s a, P s → P (step s a)) :
    ∀ (l : List Nat) (s : Sys), P s → P (l.foldl step s)
  | [], _, h => h
  | a :: l, s, h => foldl_preserve step hstep l (step s a) (hstep s a h)

lemma inv_schedulerSweep (cfg : Config) (transport : Nat → Bool)
    (gen : String → Option String) (s : Sys) (hs : oneActivePerLead s) :
    oneActivePerLead (schedulerSweep cfg transport gen s) := by
  unfold schedulerSweep
  exact foldl_preserve _ (fun s' a h => inv_sweepStep cfg transport gen s' a h)
    (dueLeads cfg s) s hs

lemma inv_reactToInbound (cfg : Config) (s : Sys) (lead : Lead)
    (conv : Conversation) (intent : Intent) (gen : String → Option String)
    (transport : Nat → Bool) (hs : oneActivePerLead s) :
    oneActivePerLead (reactToInbound cfg s lead conv intent gen transport) := by
  cases ht : transition conv.state (Event.inbound intent) with
  | none =>
    simp only [reactToInbound, ht]
    exact hs
  | some x =>
    cases x with
    | mk ns eff =>
      have hs1 : oneActivePerLead
          (updateConv s conv.id (applyEventToConv (Event.inbound intent))) :=
        inv_updateConv (convSafe_applyEvent _) hs
      by_cases he : (eff == SideEffect.scheduleReply) = true
      · cases ha : tryAcquireSlot
            (updateConv s conv.id (applyEventToConv (Event.inbound intent))) lead.id with
        | none =>
          simp only [reactToInbound, ht, he, if_true, ha]
          exact inv_updateConv convSafe_markDue hs1
        | some s2 =>
          simp only [reactToInbound, ht, he, if_true, ha]
          have heq := tryAcquireSlot_eq ha
          have hs2 : oneActivePerLead s2 :=
            inv_of_convs_eq (show s2.convs = _ by rw [heq]) hs1
          exact inv_of_convs_eq rfl
            (inv_deliverWithRetry cfg transport s2 conv.id _ hs2)
      · have he' : (eff == SideEffect.scheduleReply) = false := by
          cases h2 : (eff == SideEffect.scheduleReply) with
          | true => exact absurd h2 he
          | false => rfl
        simp only [reactToInbound, ht, he', Bool.false_eq_true, if_false]
        exact hs1

lemma inv_processNewInbound (cfg : Config) (s : Sys) (p : WebhookPayload)
    (llm : String → Intent) (gen : String → Option String) (transport : Nat → Bool)
    (hs : oneActivePerLead s) :
    oneActivePerLead (processNewInbound cfg s p llm gen transport) := by
  cases hl : s.leads.find? (fun l => l.phone == p.fromPhone) with
  | none =>
    simp only [processNewInbound, hl]
    exact inv_of_convs_eq rfl hs
  | some lead =>
    have hs1 : oneActivePerLead
        (if s.convs.any (fun c => c.leadId == lead.id) then s
          else startConversation s lead.id) := by
      split
      · exact hs
      · exact inv_startConversation s lead.id hs
    cases hac : activeConv
        (if s.convs.any (fun c => c.leadId == lead.id) then s
          else startConversation s lead.id) lead.id with
    | none =>
      simp only [processNewInbound, hl, hac]
      exact inv_of_convs_eq rfl hs1
    | some conv =>
      simp only [processNewInbound, hl, hac]
      exact inv_reactToInbound cfg _ lead conv _ gen transport
        (inv_of_convs_eq rfl hs1)

lemma inv_handleInboundWebhook (cfg : Config) (s : Sys) (p : WebhookPayload)
    (llm : String → Intent) (gen : String → Option String) (transport : Nat → Bool)
    (hs : oneActivePerLead s) :
    oneActivePerLead (handleInboundWebhook cfg s p llm gen transport).1 := by
  unfold handleInboundWebhook
  split
  · exact hs
  · exact inv_processNewInbound cfg s p llm gen transport hs

lemma inv_applyTimeouts (cfg : Config) (s : Sys) (hs : oneActivePerLead s) :
    oneActivePerLead (applyTimeouts cfg s) := by
  intro lead
  refine le_trans ?_ (hs lead)
  unfold nonTerminalCount
  rw [show (applyTimeouts cfg s).convs = s.convs.map (fun c =>
    if c.state == ConvState.engaged && cfg.inactivityWindow < cfg.now - c.lastContact then
      applyEventToConv Event.timeout c
    else c) from rfl]
  apply countP_map_le
  intro c hc
  by_cases h : (c.state == ConvState.engaged &&
      decide (cfg.inactivityWindow < cfg.now - c.lastContact)) = true
  · rw [if_pos h] at hc
    rw [Bool.and_eq_true] at hc ⊢
    obtain ⟨h1, h2⟩ := hc
    constructor
    · rw [← applyEventToConv_leadId Event.timeout c]
      exact h1
    · rw [Bool.not_eq_true'] at h2 ⊢
      exact applyEventToConv_nonterm Event.timeout c h2
  · rw [if_neg h] at hc
    exact hc

end Core

/-- Claim C4: at every store satisfying the one-active-Conversation-per-Lead
invariant, every operation of the core — creating a Conversation, applying
inactivity timeouts, processing an inbound webhook, running a Scheduler
sweep, and a successful manual send — yields a store that still satisfies it:
no Lead ever has two non-terminal Conversations. -/
theorem Core.one_active_conversation_per_lead_preserved (cfg : Core.Config)
    (s : Core.Sys) (lead : Nat) (body : String) (p : Core.WebhookPayload)
    (llm : String → Core.Intent) (gen : String → Option String)
    (transport : Nat → Bool) (hinv : Core.oneActivePerLead s) :
    Core.oneActivePerLead (Core.startConversation s lead) ∧
    Core.oneActivePerLead (Core.applyTimeouts cfg s) ∧
    Core.oneActivePerLead (Core.handleInboundWebhook cfg s p llm gen transport).1 ∧
    Core.oneActivePerLead (Core.schedulerSweep cfg transport gen s) ∧
    (∀ s', Core.sendManualMessage cfg s lead body transport = Except.ok s' →
      Core.oneActivePerLead s') :=
  ⟨Core.inv_startConversation s lead hinv,
   Core.inv_applyTimeouts cfg s hinv,
   Core.inv_handleInboundWebhook cfg s p llm gen transport hinv,
   Core.inv_schedulerSweep cfg transport gen s hinv,
   fun _ h => Core.inv_attemptSend h hinv⟩

/-- Claim C4 witness: the invariant holds at a concrete one-conversation
store and is preserved by creating a Conversation for a fresh Lead. -/
theorem Core.one_active_conversation_per_lead_preserved_witness :
    Core.oneActivePerLead
      { leads := [], convs :=
          [{ id := 0, leadId := 1, state := Core.ConvState.engaged,
             bookingLinkSent := false, bookingCompleted := false, lastContact := 0,
             retryCount := 0, deliveryImpaired := 0, due := false }],
        msgs := [], slots := [], nextConvId := 1 } ∧
    Core.oneActivePerLead
      (Core.startConversation
        { leads := [], convs :=
            [{ id := 0, leadId := 1, state := Core.ConvState.engaged,
               bookingLinkSent := false, bookingCompleted := false, lastContact := 0,
               retryCount := 0, deliveryImpaired := 0, due := false }],
          msgs := [], slots := [], nextConvId := 1 } 2) :=
  ⟨fun lead => le_trans (List.countP_le_length _)
    (by simp),
   (Core.one_active_conversation_per_lead_preserved
     { maxLen := 160, maxSendAttempts := 3, baseDelay := 1, cadence := 1,
       inactivityWindow := 5, now := 10, rateCeiling := 50 }
     { leads := [], convs :=
         [{ id := 0, leadId := 1, state := Core.ConvState.engaged,
            bookingLinkSent := false, bookingCompleted := false, lastContact := 0,
            retryCount := 0, deliveryImpaired := 0, due := false }],
       msgs := [], slots := [], nextConvId := 1 }
     2 "x" { fromPhone := "p", body := "b", messageId := "m" }
     (fun _ => Core.Intent.generic) (fun _ => Option.none) (fun _ => true)
     (fun lead => le_trans (List.countP_le_length _) (by simp))).1⟩

/-- Claim C3: processing an inbound webhook event is idempotent in the
transport-assigned message identifier — delivering the same payload twice
leaves exactly one persisted Message for that identifier, the second
delivery changes nothing in the store (so at most one state transition is
caused overall), and the second delivery is acknowledged as successfully
processed. -/
theorem Core.inbound_webhook_idempotent (cfg : Core.Config) (s : Core.Sys)
    (p : Core.WebhookPayload) (llm : String → Core.Intent)
    (gen : String → Option String) (transport : Nat → Bool)
    (hnew : Core.idRecorded s p.messageId = false) :
    (Core.handleInboundWebhook cfg
        (Core.handleInboundWebhook cfg s p llm gen transport).1 p llm gen transport).1
      = (Core.handleInboundWebhook cfg s p llm gen transport).1 ∧
    (Core.handleInboundWebhook cfg
        (Core.handleInboundWebhook cfg s p llm gen transport).1 p llm gen transport).2
      = Core.Ack.processed ∧
    Core.msgCountFor
      (Core.handleInboundWebhook cfg
        (Core.handleInboundWebhook cfg s p llm gen transport).1 p llm gen transport).1
      p.messageId = 1 := by
  have h1 : (Core.handleInboundWebhook cfg s p llm gen transport).1 =
      Core.processNewInbound cfg s p llm gen transport := by
    simp [Core.handleInboundWebhook, hnew]
  obtain ⟨hcount, hid⟩ := Core.processNewInbound_records cfg s p llm gen transport
  have hzero : Core.msgCountFor s p.messageId = 0 :=
    Core.idRecorded_false_count s p.messageId hnew
  have hone : Core.msgCountFor (Core.processNewInbound cfg s p llm gen transport)
      p.messageId = 1 := by
    rw [hcount, hzero]
  have h2 : Core.handleInboundWebhook cfg
      (Core.processNewInbound cfg s p llm gen transport) p llm gen transport =
      (Core.processNewInbound cfg s p llm gen transport, Core.Ack.processed) := by
    simp [Core.handleInboundWebhook, hid]
  rw [h1, h2]
  exact ⟨rfl, rfl, hone⟩

/-- Claim C3 witness: replaying a concrete webhook payload against an empty
store — after the two deliveries exactly one Message with the identifier is
persisted and the store is unchanged by the replay. -/
theorem Core.inbound_webhook_idempotent_witness :
    Core.idRecorded
      { leads := [], convs := [], msgs := [], slots := [], nextConvId := 0 } "m1" = false ∧
    Core.msgCountFor
      (Core.handleInboundWebhook
        { maxLen := 160, maxSendAttempts := 3, baseDelay := 1, cadence := 1,
          inactivityWindow := 5, now := 10, rateCeiling := 50 }
        (Core.handleInboundWebhook
          { maxLen := 160, maxSendAttempts := 3, baseDelay := 1, cadence := 1,
            inactivityWindow := 5, now := 10, rateCeiling := 50 }
          { leads := [], convs := [], msgs := [], slots := [], nextConvId := 0 }
          { fromPhone := "777", body := "hi", messageId := "m1" }
          (fun _ => Core.Intent.generic) (fun _ => Option.none) (fun _ => true)).1
        { fromPhone := "777", body := "hi", messageId := "m1" }
        (fun _ => Core.Intent.generic) (fun _ => Option.none) (fun _ => true)).1
      "m1" = 1 :=
  ⟨by decide,
   (Core.inbound_webhook_idempotent
     { maxLen := 160, maxSendAttempts := 3, baseDelay := 1, cadence := 1,
       inactivityWindow := 5, now := 10, rateCeiling := 50 }
     { leads := [], convs := [], msgs := [], slots := [], nextConvId := 0 }
     { fromPhone := "777", body := "hi", messageId := "m1" }
     (fun _ => Core.Intent.generic) (fun _ => Option.none) (fun _ => true)
     (by decide)).2.2⟩

/-- Claim C1: for every Conversation in a terminal state (`booked` or
`opted_out`), every subsequent send attempt — whether issued as a manual send
or driven by a Scheduler sweep — produces no queued and no sent outbound
Message, and the attempt is reported to the caller as the explicit rejection
`SendError.terminalState` rather than a silent no-op; moreover a terminal
Conversation is never even selected as due by a sweep, and the sweep step for
that lead leaves the store (hence its Messages) unchanged. -/
theorem Core.terminal_conversation_sends_rejected (cfg : Core.Config) (s : Core.Sys)
    (lead : Nat) (body : String) (transport : Nat → Bool)
    (gen : String → Option String)
    (hall : ∀ c ∈ s.convs, c.leadId = lead → c.state.isTerminal = true)
    (hex : ∃ c ∈ s.convs, c.leadId = lead) :
    Core.sendManualMessage cfg s lead body transport =
      Except.error Core.SendError.terminalState ∧
    (∀ bodyOf, Core.attemptSend cfg s lead bodyOf transport =
      Except.error Core.SendError.terminalState) ∧
    (∀ c ∈ s.convs, c.leadId = lead → Core.isDue cfg c = false) ∧
    Core.sweepStep cfg transport gen s lead = s := by
  have hactive : Core.activeConv s lead = Option.none := by
    apply List.find?_eq_none.mpr
    intro c hc hp
    rw [Bool.and_eq_true] at hp
    obtain ⟨h1, h2⟩ := hp
    have hl : c.leadId = lead := by
      exact beq_iff_eq.mp h1
    have ht := hall c hc hl
    rw [Bool.not_eq_true'] at h2
    rw [ht] at h2
    exact absurd h2 (by simp)
  have hterm : Core.hasTerminalConv s lead = true := by
    apply List.any_eq_true.mpr
    obtain ⟨c, hc, hl⟩ := hex
    refine ⟨c, hc, ?_⟩
    rw [Bool.and_eq_true]
    exact ⟨beq_iff_eq.mpr hl, hall c hc hl⟩
  have hattempt : ∀ bodyOf, Core.attemptSend cfg s lead bodyOf transport =
      Except.error Core.SendError.terminalState := by
    intro bodyOf
    unfold Core.attemptSend
    rw [hactive]
    simp [hterm]
  refine ⟨hattempt _, hattempt, ?_, ?_⟩
  · intro c hc hl
    have ht := hall c hc hl
    simp [Core.isDue, ht]
  · unfold Core.sweepStep
    rw [hattempt _]

/-- Claim C1 witness: a Lead whose only Conversation is `opted_out` — the
manual send is explicitly rejected with the terminal-state error (the
hypotheses that every Conversation of the lead is terminal, and that one
exists, are discharged at the concrete store). -/
theorem Core.terminal_conversation_sends_rejected_witness :
    Core.sendManualMessage
      { maxLen := 160, maxSendAttempts := 3, baseDelay := 1, cadence := 1,
        inactivityWindow := 5, now := 10, rateCeiling := 50 }
      { leads := [], convs :=
        [{ id := 7, leadId := 3, state := Core.ConvState.optedOut,
           bookingLinkSent := false, bookingCompleted := false, lastContact := 0,
           retryCount := 0, deliveryImpaired := 0, due := false }],
        msgs := [], slots := [], nextConvId := 8 }
      3 "hello" (fun _ => true) =
      Except.error Core.SendError.terminalState :=
  (Core.terminal_conversation_sends_rejected
     { maxLen := 160, maxSendAttempts := 3, baseDelay := 1, cadence := 1,
       inactivityWindow := 5, now := 10, rateCeiling := 50 }
     { leads := [], convs :=
       [{ id := 7, leadId := 3, state := Core.ConvState.optedOut,
          bookingLinkSent := false, bookingCompleted := false, lastContact := 0,
          retryCount := 0, deliveryImpaired := 0, due := false }],
       msgs := [], slots := [], nextConvId := 8 }
     3 "hello" (fun _ => true) (fun _ => Option.none)
     (by decide) (by decide)).1

/-- Claim C7: at most one outbound send is in flight per Lead. Acquiring the
Lead's execution slot is the only way to begin an outbound send: while the
slot is held, `attemptSend` (the shared entry point of Scheduler-driven and
manual sends) never succeeds — acquisition being non-blocking, it reports
`slotUnavailable` instead of waiting — so the Scheduler skips the Lead for
the sweep (the store is unchanged), and the Inbound Pipeline, hitting a
schedule-reply side effect with the slot held, composes no reply (the
outbound message count is unchanged) and instead marks the Conversation due
for the next sweep. -/
theorem Core.per_lead_slot_mutual_exclusion
    (cfg : Core.Config) (s : Core.Sys) (lead : Core.Lead) (conv : Core.Conversation)
    (ns : Core.ConvState) (p : Core.WebhookPayload)
    (llm : String → Core.Intent) (gen : String → Option String) (transport : Nat → Bool)
    (hheld : Core.slotHeld s lead.id = true)
    (hnew : Core.idRecorded s p.messageId = false)
    (hlead : s.leads.find? (fun l => l.phone == p.fromPhone) = some lead)
    (hconv : Core.activeConv s lead.id = some conv)
    (hfind : s.convs.find? (fun x => x.id == conv.id) = some conv)
    (heff : Core.transition conv.state (Core.Event.inbound (Core.classify p.body llm))
        = some (ns, Core.SideEffect.scheduleReply)) :
    (∀ bodyOf s', Core.attemptSend cfg s lead.id bodyOf transport ≠ Except.ok s') ∧
    Core.sweepStep cfg transport gen s lead.id = s ∧
    Core.outboundCount (Core.handleInboundWebhook cfg s p llm gen transport).1 =
      Core.outboundCount s ∧
    ((Core.handleInboundWebhook cfg s p llm gen transport).1.convs.find?
        (fun x => x.id == conv.id)).map (fun x => x.due) = some true := by
  have hacq : Core.tryAcquireSlot s lead.id = Option.none := by
    simp [Core.tryAcquireSlot, hheld]
  have hattempt : ∀ bodyOf s',
      Core.attemptSend cfg s lead.id bodyOf transport ≠ Except.ok s' := by
    intro bodyOf s' hok
    simp only [Core.attemptSend, hconv] at hok
    by_cases hterm : conv.state.isTerminal = true
    · rw [if_pos hterm] at hok
      exact Except.noConfusion hok
    · rw [if_neg hterm, hacq] at hok
      exact Except.noConfusion hok
  have hany : s.convs.any (fun c => c.leadId == lead.id) = true := by
    apply List.any_eq_true.mpr
    refine ⟨conv, List.mem_of_find?_eq_some hconv, ?_⟩
    have hp := List.find?_some hconv
    rw [Bool.and_eq_true] at hp
    exact hp.1
  have hres : (Core.handleInboundWebhook cfg s p llm gen transport).1 =
      Core.markDue
        (Core.updateConv
          { s with msgs := s.msgs ++ [Core.inboundRecord (some conv.id) p.body p.messageId] }
          conv.id
          (Core.applyEventToConv (Core.Event.inbound (Core.classify p.body llm))))
        conv.id := by
    have hacq3 : Core.tryAcquireSlot
        (Core.updateConv
          { s with msgs := s.msgs ++ [Core.inboundRecord (some conv.id) p.body p.messageId] }
          conv.id
          (Core.applyEventToConv (Core.Event.inbound (Core.classify p.body llm))))
        lead.id = Option.none := by
      unfold Core.tryAcquireSlot
      rw [show Core.slotHeld
        (Core.updateConv
          { s with msgs := s.msgs ++ [Core.inboundRecord (some conv.id) p.body p.messageId] }
          conv.id
          (Core.applyEventToConv (Core.Event.inbound (Core.classify p.body llm))))
        lead.id = true from hheld]
      rfl
    simp only [Core.handleInboundWebhook, hnew, Bool.false_eq_true, if_false,
      Core.processNewInbound, hlead, hany, if_true, hconv, Core.reactToInbound, heff,
      hacq3]
    rfl
  refine ⟨hattempt, ?_, ?_, ?_⟩
  · cases hstep : Core.attemptSend cfg s lead.id
        (fun c => Core.compose cfg (Core.nameOfLead s lead.id) (Core.historyOf s c.id)
          Core.Event.outboundSent gen) transport with
    | ok s1 => exact absurd hstep (hattempt _ s1)
    | error e => simp only [Core.sweepStep, hstep]
  · rw [hres]
    show (s.msgs ++ [Core.inboundRecord (some conv.id) p.body p.messageId]).countP _ = _
    rw [List.countP_append]
    simp [Core.inboundRecord, Core.outboundCount]
  · rw [hres]
    unfold Core.markDue
    rw [Core.find?_updateConv _ conv.id (fun c => { c with due := true }) (fun c => rfl)]
    rw [Core.find?_updateConv _ conv.id
      (Core.applyEventToConv (Core.Event.inbound (Core.classify p.body llm)))
      (Core.applyEventToConv_id _)]
    rw [show ({ s with msgs := s.msgs ++ [Core.inboundRecord (some conv.id) p.body p.messageId] } : Core.Sys).convs.find? (fun x => x.id == conv.id) = some conv from hfind]
    rfl

/-- Claim C7 witness: a concrete store whose Lead 2 slot is held — the
inbound pipeline, reaching a schedule-reply side effect, marks the
Conversation due instead of composing a reply. -/
theorem Core.per_lead_slot_mutual_exclusion_witness :
    Core.slotHeld
      { leads := [{ id := 2, name := "Bo", phone := "555" }],
        convs :=
          [{ id := 1, leadId := 2, state := Core.ConvState.engaged,
             bookingLinkSent := false, bookingCompleted := false, lastContact := 0,
             retryCount := 0, deliveryImpaired := 0, due := false }],
        msgs := [], slots := [2], nextConvId := 2 } 2 = true ∧
    ((Core.handleInboundWebhook
        { maxLen := 160, maxSendAttempts := 3, baseDelay := 1, cadence := 1,
          inactivityWindow := 5, now := 10, rateCeiling := 50 }
        { leads := [{ id := 2, name := "Bo", phone := "555" }],
          convs :=
            [{ id := 1, leadId := 2, state := Core.ConvState.engaged,
               bookingLinkSent := false, bookingCompleted := false, lastContact := 0,
               retryCount := 0, deliveryImpaired := 0, due := false }],
          msgs := [], slots := [2], nextConvId := 2 }
        { fromPhone := "555", body := "hello there", messageId := "m9" }
        (fun _ => Core.Intent.generic) (fun _ => Option.none)
        (fun _ => true)).1.convs.find?
      (fun x => x.id ==
        ({ id := 1, leadId := 2, state := Core.ConvState.engaged,
           bookingLinkSent := false, bookingCompleted := false, lastContact := 0,
           retryCount := 0, deliveryImpaired := 0, due := false } :
          Core.Conversation).id)).map (fun x => x.due) = some true :=
  ⟨by decide,
   (Core.per_lead_slot_mutual_exclusion
     { maxLen := 160, maxSendAttempts := 3, baseDelay := 1, cadence := 1,
       inactivityWindow := 5, now := 10, rateCeiling := 50 }
     { leads := [{ id := 2, name := "Bo", phone := "555" }],
       convs :=
         [{ id := 1, leadId := 2, state := Core.ConvState.engaged,
            bookingLinkSent := false, bookingCompleted := false, lastContact := 0,
            retryCount := 0, deliveryImpaired := 0, due := false }],
       msgs := [], slots := [2], nextConvId := 2 }
     { id := 2, name := "Bo", phone := "555" }
     { id := 1, leadId := 2, state := Core.ConvState.engaged,
       bookingLinkSent := false, bookingCompleted := false, lastContact := 0,
       retryCount := 0, deliveryImpaired := 0, due := false }
     Core.ConvState.engaged
     { fromPhone := "555", body := "hello there", messageId := "m9" }
     (fun _ => Core.Intent.generic) (fun _ => Option.none) (fun _ => true)
     (by decide) (by decide) (by decide) (by decide) (by decide) (by decide)).2.2.2⟩

/-- Claim C6: when the transport fails on every attempt, the bounded retry
loop (whose backoff schedule is exponential, `base * 2 ^ i` before attempt
`i`) exhausts without a success, whereupon the Conversation's
delivery-impaired counter is incremented with its state unchanged, the
Conversation is left due for the next sweep rather than dropped, and no
state transition occurs (the stored record differs from the original only in
the counter and the due flag). -/
theorem Core.transport_failure_backoff_and_impair (cfg : Core.Config)
    (transport : Nat → Bool) (s : Core.Sys) (c : Core.Conversation) (body : String)
    (hfind : s.convs.find? (fun x => x.id == c.id) = some c)
    (hfail : ∀ i, i < cfg.maxSendAttempts → transport i = false) :
    Core.firstSuccess transport cfg.maxSendAttempts = Option.none ∧
    (Core.deliverWithRetry cfg transport s c.id body).msgs = s.msgs ∧
    (Core.deliverWithRetry cfg transport s c.id body).convs.find?
        (fun x => x.id == c.id) =
      some { c with deliveryImpaired := c.deliveryImpaired + 1, due := true } ∧
    ({ c with deliveryImpaired := c.deliveryImpaired + 1, due := true } :
        Core.Conversation).state = c.state ∧
    (∀ i, i < cfg.maxSendAttempts →
      (Core.retrySchedule cfg.baseDelay cfg.maxSendAttempts)[i]? =
        some (cfg.baseDelay * 2 ^ i)) := by
  have hfs : Core.firstSuccess transport cfg.maxSendAttempts = Option.none := by
    apply List.find?_eq_none.mpr
    intro i hi
    have := hfail i (List.mem_range.mp hi)
    simp [this]
  refine ⟨hfs, ?_, ?_, rfl, ?_⟩
  · simp only [Core.deliverWithRetry, hfs]
    rfl
  · simp only [Core.deliverWithRetry, hfs]
    rw [Core.find?_updateConv s c.id
      (fun x => { x with deliveryImpaired := x.deliveryImpaired + 1, due := true })
      (fun x => rfl), hfind]
    rfl
  · intro i hi
    unfold Core.retrySchedule
    rw [List.getElem?_map, List.getElem?_range hi]
    rfl

/-- Claim C6 witness: with an always-failing transport and three allowed
attempts, the concrete Conversation's counter is incremented, its state kept,
and it stays due. -/
theorem Core.transport_failure_backoff_and_impair_witness :
    ({ leads := [], convs :=
        [{ id := 4, leadId := 2, state := Core.ConvState.engaged,
           bookingLinkSent := false, bookingCompleted := false, lastContact := 0,
           retryCount := 0, deliveryImpaired := 0, due := true }],
        msgs := [], slots := [], nextConvId := 5 } : Core.Sys).convs.find?
      (fun x => x.id == 4) =
      some { id := 4, leadId := 2, state := Core.ConvState.engaged,
             bookingLinkSent := false, bookingCompleted := false, lastContact := 0,
             retryCount := 0, deliveryImpaired := 0, due := true } ∧
    (Core.deliverWithRetry
        { maxLen := 160, maxSendAttempts := 3, baseDelay := 1, cadence := 1,
          inactivityWindow := 5, now := 10, rateCeiling := 50 }
        (fun _ => false)
        { leads := [], convs :=
          [{ id := 4, leadId := 2, state := Core.ConvState.engaged,
             bookingLinkSent := false, bookingCompleted := false, lastContact := 0,
             retryCount := 0, deliveryImpaired := 0, due := true }],
          msgs := [], slots := [], nextConvId := 5 }
        4 "msg").convs.find? (fun x => x.id == 4) =
      some { id := 4, leadId := 2, state := Core.ConvState.engaged,
             bookingLinkSent := false, bookingCompleted := false, lastContact := 0,
             retryCount := 0, deliveryImpaired := 1, due := true } :=
  ⟨by decide,
   (Core.transport_failure_backoff_and_impair
     { maxLen := 160, maxSendAttempts := 3, baseDelay := 1, cadence := 1,
       inactivityWindow := 5, now := 10, rateCeiling := 50 }
     (fun _ => false)
     { leads := [], convs :=
       [{ id := 4, leadId := 2, state := Core.ConvState.engaged,
          bookingLinkSent := false, bookingCompleted := false, lastContact := 0,
          retryCount := 0, deliveryImpaired := 0, due := true }],
       msgs := [], slots := [], nextConvId := 5 }
     { id := 4, leadId := 2, state := Core.ConvState.engaged,
       bookingLinkSent := false, bookingCompleted := false, lastContact := 0,
       retryCount := 0, deliveryImpaired := 0, due := true }
     "msg" (by decide) (by decide)).2.2.1⟩

/-- Claim C2: for every pair (state, event), the Conversation State Machine's
transition function returns exactly the next state and side effect given by
the table in §4.1 — including its re-engagement-timeout row (unresponsive +
re-engagement-timeout → unresponsive, stop scheduling entirely), which the
claim's enumeration of the table omits — and for every (state, event) pair
not in the table the attempt is rejected (`Option.none`), the state being
left unchanged. -/
theorem Core.transition_matches_full_table :
    ∀ st ev, Core.transition st ev = Core.claimTransitionTable st ev := by
  decide

/-- Claim C2 counterexample: the claim's enumeration of the §4.1 table omits
the re-engagement-timeout row, so as stated it asserts the pair
(unresponsive, re-engagement-timeout) is rejected; the state machine instead
accepts it, returning unresponsive (final) with stop-scheduling-entirely. -/
theorem Core.claim_table_omits_reengagement_row :
    Core.transition Core.ConvState.unresponsive Core.Event.reengagementTimeout ≠ Option.none ∧
    Core.transition Core.ConvState.unresponsive Core.Event.reengagementTimeout =
      some (Core.ConvState.unresponsive, Core.SideEffect.stopSchedulingEntirely) := by
  decide

/-- Claim C5: for every input (lead attributes, ordered message history,
trigger event) and any behaviour of the external text-generation capability,
the Composer returns a non-empty body of at most the configured maximum
length, and when the capability fails (`Option.none`) or returns empty
content the result is exactly the deterministic templated fallback message
(under the configured maximum length), so a required message is never
absent. -/
theorem Core.composer_never_empty (cfg : Core.Config) (leadName : String)
    (history : List Core.Message) (trigger : Core.Event)
    (gen : String → Option String) (hmax : 0 < cfg.maxLen) :
    (0 < (Core.compose cfg leadName history trigger gen).length ∧
      (Core.compose cfg leadName history trigger gen).length ≤ cfg.maxLen) ∧
    ((gen (Core.buildContext leadName history trigger) = Option.none ∨
        gen (Core.buildContext leadName history trigger) = some "") →
      Core.compose cfg leadName history trigger gen =
        Core.truncate cfg.maxLen (Core.fallbackMessage leadName)) := by
  constructor
  · have hraw : 0 < (match gen (Core.buildContext leadName history trigger) with
        | some t => if t.length == 0 then Core.fallbackMessage leadName else t
        | Option.none => Core.fallbackMessage leadName).length := by
      cases hg : gen (Core.buildContext leadName history trigger) with
      | none => exact Core.fallback_length_pos leadName
      | some t =>
        by_cases ht : (t.length == 0) = true
        · simp only [ht, if_true]
          exact Core.fallback_length_pos leadName
        · have ht' : (t.length == 0) = false := by
            cases h2 : (t.length == 0) with
            | true => exact absurd h2 ht
            | false => rfl
          simp only [ht', if_false]
          exact Core.string_length_pos_of_ne_zero t ht'
    constructor
    · unfold Core.compose
      rw [Core.truncate_length]
      omega
    · unfold Core.compose
      rw [Core.truncate_length]
      omega
  · intro hg
    unfold Core.compose
    rcases hg with hg | hg
    · rw [hg]
    · rw [hg]
      rfl

/-- Claim C5 witness: a failing generation capability at a concrete input
still yields a non-empty, bounded body equal to the truncated templated
fallback. -/
theorem Core.composer_never_empty_witness :
    0 < (160 : Nat) ∧
    ((0 < (Core.compose
        { maxLen := 160, maxSendAttempts := 3, baseDelay := 1, cadence := 1,
          inactivityWindow := 5, now := 10, rateCeiling := 50 }
        "Ann" [] Core.Event.outboundSent (fun _ => Option.none)).length ∧
      (Core.compose
        { maxLen := 160, maxSendAttempts := 3, baseDelay := 1, cadence := 1,
          inactivityWindow := 5, now := 10, rateCeiling := 50 }
        "Ann" [] Core.Event.outboundSent (fun _ => Option.none)).length ≤ 160) ∧
     (((fun _ => Option.none : String → Option String)
          (Core.buildContext "Ann" [] Core.Event.outboundSent) = Option.none ∨
        (fun _ => Option.none : String → Option String)
          (Core.buildContext "Ann" [] Core.Event.outboundSent) = some "") →
      Core.compose
        { maxLen := 160, maxSendAttempts := 3, baseDelay := 1, cadence := 1,
          inactivityWindow := 5, now := 10, rateCeiling := 50 }
        "Ann" [] Core.Event.outboundSent (fun _ => Option.none) =
        Core.truncate 160 (Core.fallbackMessage "Ann"))) :=
  ⟨by decide,
   Core.composer_never_empty
     { maxLen := 160, maxSendAttempts := 3, baseDelay := 1, cadence := 1,
       inactivityWindow := 5, now := 10, rateCeiling := 50 }
     "Ann" [] Core.Event.outboundSent (fun _ => Option.none) (by decide)⟩

/-- Claim C8: the Classifier's deterministic keyword tier is evaluated before
any call to the external capability — a stop-word body is classified opt-out
and a booking-confirmation body booking-confirmed, in both cases
independently of the external capability (the result is the same for every
`llm`), and an opt-out flagged by either tier takes priority over every other
intent. -/
theorem Core.classifier_deterministic_tier_first (body : String)
    (llm llm2 : String → Core.Intent) :
    (Core.containsStopWord body = true →
      Core.classify body llm = Core.Intent.optOut) ∧
    (Core.containsStopWord body = false → Core.containsBookingPhrase body = true →
      Core.classify body llm = Core.Intent.bookingConfirmed) ∧
    (∀ i, Core.ruleClassify body = some i →
      Core.classify body llm = Core.classify body llm2) ∧
    ((Core.ruleClassify body = some Core.Intent.optOut ∨
        (Core.ruleClassify body = Option.none ∧ llm body = Core.Intent.optOut)) →
      Core.classify body llm = Core.Intent.optOut) := by
  refine ⟨?_, ?_, ?_, ?_⟩
  · intro h
    simp [Core.classify, Core.ruleClassify, h]
  · intro h1 h2
    simp [Core.classify, Core.ruleClassify, h1, h2]
  · intro i h
    simp [Core.classify, h]
  · intro h
    rcases h with h | ⟨h1, h2⟩
    · simp [Core.classify, h]
    · simp [Core.classify, h1, h2]

/-- Claim C8 witness: the body "please STOP" matches the stop-word tier and
is classified opt-out without consulting the external capability. -/
theorem Core.classifier_deterministic_tier_first_witness :
    Core.containsStopWord "please STOP" = true ∧
    Core.classify "please STOP" (fun _ => Core.Intent.generic) = Core.Intent.optOut :=
  ⟨by decide,
   (Core.classifier_deterministic_tier_first "please STOP"
     (fun _ => Core.Intent.generic) (fun _ => Core.Intent.question)).1 (by decide)⟩

/-- Claim C9: the dashboard's Active Conversations statistic counts exactly
the conversations whose state is "engaged" or "new" — each such row adds one,
every other row adds nothing, and in particular an "unresponsive" row is
excluded even though `unresponsive` is a non-terminal state of the lifecycle. -/
theorem Frontend.dashboard_active_counts_engaged_or_new :
    (∀ total, (Frontend.fetchDashboardStats total []).activeConversations = 0) ∧
    (∀ total c cs, (Frontend.fetchDashboardStats total (c :: cs)).activeConversations =
      (if c.state = "engaged" ∨ c.state = "new" then 1 else 0) +
        (Frontend.fetchDashboardStats total cs).activeConversations) ∧
    (∀ total cs,
      (Frontend.fetchDashboardStats total ({ state := "unresponsive" } :: cs)).activeConversations =
        (Frontend.fetchDashboardStats total cs).activeConversations) ∧
    Core.ConvState.isTerminal Core.ConvState.unresponsive = false := by
  refine ⟨fun total => rfl, ?_, ?_, rfl⟩
  · intro total c cs
    by_cases h : c.state = "engaged" ∨ c.state = "new"
    · have hb : (c.state == "engaged" || c.state == "new") = true := by
        rcases h with h | h <;> simp [h]
      simp [Frontend.fetchDashboardStats, List.filter_cons, hb, h, Nat.add_comm]
    · have hb : (c.state == "engaged" || c.state == "new") = false := by
        push_neg at h
        simp [h.1, h.2]
      simp [Frontend.fetchDashboardStats, List.filter_cons, hb, h]
  · intro total cs
    simp [Frontend.fetchDashboardStats, List.filter_cons]

/-- Claim C10: the lead-import dialog submits a file to the import endpoint
only when one was selected with MIME type exactly "text/csv": the stored-file
invariant holds initially and is preserved by `handleFileChange`, selecting a
file of any other type sets the error and clears the selection, submitting
with no file selected sets the error and performs no request, and any request
actually issued carries a "text/csv" file to the import endpoint. -/
theorem Frontend.import_modal_requires_csv :
    Frontend.fileIsCsv Frontend.initialModalState ∧
    (∀ st sel, Frontend.fileIsCsv st →
      Frontend.fileIsCsv (Frontend.handleFileChange st sel)) ∧
    (∀ st f, f.mime ≠ "text/csv" →
      Frontend.handleFileChange st (some f) =
        { file := Option.none, error := some "Please select a CSV file" }) ∧
    (∀ st, st.file = Option.none →
      (Frontend.handleSubmit st).2 = Option.none ∧
      (Frontend.handleSubmit st).1.error = some "Please select a file to upload") ∧
    (∀ st req, Frontend.fileIsCsv st → (Frontend.handleSubmit st).2 = some req →
      req.sentFile.mime = "text/csv" ∧ req.endpointPath = "/import-leads") := by
  refine ⟨?_, ?_, ?_, ?_, ?_⟩
  · intro f h
    simp [Frontend.initialModalState] at h
  · intro st sel hinv
    cases sel with
    | none => exact hinv
    | some f =>
      by_cases hm : (f.mime != "text/csv") = true
      · intro g hg
        simp [Frontend.handleFileChange, hm] at hg
      · have hm' : f.mime = "text/csv" := by
          simp at hm
          exact hm
        intro g hg
        simp [Frontend.handleFileChange, hm'] at hg
        rw [← hg]
        exact hm'
  · intro st f hm
    have hb : (f.mime != "text/csv") = true := by
      simp [hm]
    simp [Frontend.handleFileChange, hb]
  · intro st h
    simp [Frontend.handleSubmit, h]
  · intro st req hinv hreq
    cases hf : st.file with
    | none => simp [Frontend.handleSubmit, hf] at hreq
    | some f =>
      simp [Frontend.handleSubmit, hf] at hreq
      constructor
      · rw [← hreq]
        exact hinv f hf
      · rw [← hreq]

/-- Claim C10 witness: at concrete states — a wrongly-typed selection is
rejected and cleared, an empty submit performs no request, and a submit with
a stored CSV file issues a "text/csv" request to the import endpoint. -/
theorem Frontend.import_modal_requires_csv_witness :
    ({ name := "a.txt", mime := "text/plain" } : Frontend.FileRec).mime ≠ "text/csv" ∧
    Frontend.handleFileChange Frontend.initialModalState
        (some { name := "a.txt", mime := "text/plain" }) =
      { file := Option.none, error := some "Please select a CSV file" } ∧
    Frontend.initialModalState.file = Option.none ∧
    (Frontend.handleSubmit Frontend.initialModalState).2 = Option.none :=
  ⟨by decide,
   (Frontend.import_modal_requires_csv).2.2.1 Frontend.initialModalState
     { name := "a.txt", mime := "text/plain" } (by decide),
   by decide,
   ((Frontend.import_modal_requires_csv).2.2.2.1 Frontend.initialModalState (by decide)).1⟩
